import Mathlib

/-!
Verification development for the netd packet-filter chain topology
orchestrator (`server/Controllers.cpp`).

The source file is embedded shallowly:

* The two chain-set installers `createChildChains` (safe/incremental) and
  `createChildChainsFast` (fast/atomic) are embedded as trace builders: they
  return the list of external-tool invocations (`Call`) the C++ code issues,
  mirroring the do-while loops of the source.  Both C++ loops dereference the
  first array element before testing the NULL terminator, so on an empty
  child list the C code is undefined; the embedding returns `none` there.
* `Controllers::initIptablesRules` and `Controllers::init` are straight-line
  code whose call results are never inspected (the installers return `void`,
  `exec*` results are discarded, and `RouteController::Init` failure is only
  logged), so their embeddings produce fixed invocation traces.
* The external rule tool (iptables / iptables-restore) and the kernel rule
  state it mutates are outside this repository; their semantics are modelled
  from the spec (see the `Modelled from the spec:` doc comments below) as a
  deterministic state-transition interpreter over the invocation traces.
-/

/-- Address-family target of an external tool invocation
(`IptablesTarget` in the source). -/
inductive IptablesTarget
  | V4
  | V6
  | V4V6
deriving DecidableEq, Repr

/-! Modelled from the spec: the child-chain name constants referenced by the
topology arrays live in the feature modules' headers (BandwidthController.h,
etc.), which are not part of the material shown; only their distinctness and
identity matter here, so they are given their conventional netd string
values. -/
namespace BandwidthController

def LOCAL_INPUT : String := "bw_INPUT"

def LOCAL_FORWARD : String := "bw_FORWARD"

def LOCAL_OUTPUT : String := "bw_OUTPUT"

def LOCAL_RAW_PREROUTING : String := "bw_raw_PREROUTING"

def LOCAL_MANGLE_POSTROUTING : String := "bw_mangle_POSTROUTING"

end BandwidthController

/-! Modelled from the spec: firewall module chain-name constants
(FirewallController.h, outside the shown material). -/
namespace FirewallController

def LOCAL_INPUT : String := "fw_INPUT"

def LOCAL_FORWARD : String := "fw_FORWARD"

def LOCAL_OUTPUT : String := "fw_OUTPUT"

end FirewallController

/-! Modelled from the spec: NAT module chain-name constants
(NatController.h, outside the shown material). -/
namespace NatController

def LOCAL_FORWARD : String := "natctrl_FORWARD"

def LOCAL_RAW_PREROUTING : String := "natctrl_raw_PREROUTING"

def LOCAL_MANGLE_FORWARD : String := "natctrl_mangle_FORWARD"

def LOCAL_NAT_POSTROUTING : String := "natctrl_nat_POSTROUTING"

end NatController

/-! Modelled from the spec: idle-timer module chain-name constants
(IdletimerController.h, outside the shown material). -/
namespace IdletimerController

def LOCAL_RAW_PREROUTING : String := "idletimer_raw_PREROUTING"

def LOCAL_MANGLE_POSTROUTING : String := "idletimer_mangle_POSTROUTING"

end IdletimerController

/-! Modelled from the spec: strict-mode module chain-name constant
(StrictController.h, outside the shown material). -/
namespace StrictController

def LOCAL_OUTPUT : String := "st_OUTPUT"

end StrictController

/-- Modelled from the spec: OEM/vendor hook chain names
(oem_iptables_hook.h, outside the shown material). -/
def OEM_IPTABLES_FILTER_FORWARD : String := "oem_fwd"

/-- Modelled from the spec: OEM/vendor hook chain name. -/
def OEM_IPTABLES_FILTER_OUTPUT : String := "oem_out"

/-- Modelled from the spec: OEM/vendor hook chain name. -/
def OEM_IPTABLES_MANGLE_POSTROUTING : String := "oem_mangle_post"

/-- Modelled from the spec: OEM/vendor hook chain name. -/
def OEM_IPTABLES_NAT_PREROUTING : String := "oem_nat_pre"

/-- `FILTER_INPUT` (Controllers.cpp lines 37-43); the terminating NULL of the
C array is the end of the Lean list. -/
def FILTER_INPUT : List String :=
  [BandwidthController.LOCAL_INPUT,
   FirewallController.LOCAL_INPUT]

/-- `FILTER_FORWARD` (Controllers.cpp lines 45-51). -/
def FILTER_FORWARD : List String :=
  [OEM_IPTABLES_FILTER_FORWARD,
   FirewallController.LOCAL_FORWARD,
   BandwidthController.LOCAL_FORWARD,
   NatController.LOCAL_FORWARD]

/-- `FILTER_OUTPUT` (Controllers.cpp lines 53-59). -/
def FILTER_OUTPUT : List String :=
  [OEM_IPTABLES_FILTER_OUTPUT,
   FirewallController.LOCAL_OUTPUT,
   StrictController.LOCAL_OUTPUT,
   BandwidthController.LOCAL_OUTPUT]

/-- `RAW_PREROUTING` (Controllers.cpp lines 61-66). -/
def RAW_PREROUTING : List String :=
  [BandwidthController.LOCAL_RAW_PREROUTING,
   IdletimerController.LOCAL_RAW_PREROUTING,
   NatController.LOCAL_RAW_PREROUTING]

/-- `MANGLE_POSTROUTING` (Controllers.cpp lines 68-73). -/
def MANGLE_POSTROUTING : List String :=
  [OEM_IPTABLES_MANGLE_POSTROUTING,
   BandwidthController.LOCAL_MANGLE_POSTROUTING,
   IdletimerController.LOCAL_MANGLE_POSTROUTING]

/-- `MANGLE_FORWARD` (Controllers.cpp lines 75-78). -/
def MANGLE_FORWARD : List String :=
  [NatController.LOCAL_MANGLE_FORWARD]

/-- `NAT_PREROUTING` (Controllers.cpp lines 80-83). -/
def NAT_PREROUTING : List String :=
  [OEM_IPTABLES_NAT_PREROUTING]

/-- `NAT_POSTROUTING` (Controllers.cpp lines 85-88). -/
def NAT_POSTROUTING : List String :=
  [NatController.LOCAL_NAT_POSTROUTING]

/-- One externally observable invocation made by the orchestrator:
the per-call rule-tool invocations (`execIptables`, `execIptablesSilently`),
the transactional invocation (`execIptablesRestore`), the five module
hook-registration calls of `initIptablesRules`, and the two calls made by
`Controllers::init` after it. -/
inductive Call
  | exec (target : IptablesTarget) (args : List String)
  | execSilent (target : IptablesTarget) (args : List String)
  | restore (target : IptablesTarget) (script : String)
  | oemHook
  | firewallHooks
  | natHooks
  | bandwidthHooks
  | idletimerHooks
  | enableBandwidthControl (enabled : Bool)
  | routeControllerInit (netId : Nat)
deriving DecidableEq, Repr

/-- The five invocations the safe installer's loop body issues for one child
chain (Controllers.cpp lines 102-106): delete jump, flush, delete chain
(silent), then create chain and append jump (ordinary). -/
def safeChildCalls (target : IptablesTarget) (table parentChain child : String) :
    List Call :=
  [Call.execSilent target ["-t", table, "-D", parentChain, "-j", child],
   Call.execSilent target ["-t", table, "-F", child],
   Call.execSilent target ["-t", table, "-X", child],
   Call.exec target ["-t", table, "-N", child],
   Call.exec target ["-t", table, "-A", parentChain, "-j", child]]

/-- The do-while loop of `createChildChains`: run the body on the current
child, then continue while the next array slot is not NULL. -/
def createChildChainsLoop (target : IptablesTarget) (table parentChain : String) :
    String → List String → List Call
  | c, [] => safeChildCalls target table parentChain c
  | c, c2 :: rest =>
      safeChildCalls target table parentChain c ++
        createChildChainsLoop target table parentChain c2 rest

/-- `createChildChains` (Controllers.cpp lines 90-108), as the trace of
external invocations it issues.  The C code dereferences `*childChain`
before any termination test, so an empty (single-NULL) array is undefined
behaviour: `none`. -/
def createChildChains (target : IptablesTarget) (table parentChain : String) :
    List String → Option (List Call)
  | [] => none
  | c :: cs => some (createChildChainsLoop target table parentChain c cs)

/-- The do-while loop of `createChildChainsFast`: the script text appended
for the current child, then continue while the next slot is not NULL. -/
def createChildChainsFastLoop (parentChain : String) :
    String → List String → String
  | c, [] => ":" ++ c ++ " -\n" ++ "-A " ++ parentChain ++ " -j " ++ c ++ "\n"
  | c, c2 :: rest =>
      (":" ++ c ++ " -\n" ++ "-A " ++ parentChain ++ " -j " ++ c ++ "\n") ++
        createChildChainsFastLoop parentChain c2 rest

/-- `createChildChainsFast` (Controllers.cpp lines 110-126), as the trace of
external invocations it issues: it builds one iptables-restore script and
submits it in a single `execIptablesRestore` call.  As in the safe variant,
an empty child array is undefined behaviour: `none`. -/
def createChildChainsFast (target : IptablesTarget) (table parentChain : String) :
    List String → Option (List Call)
  | [] => none
  | c :: cs =>
      some [Call.restore target
        ("*" ++ table ++ "\n" ++
         ":" ++ parentChain ++ " -\n" ++
         "-F " ++ parentChain ++ "\n" ++
         createChildChainsFastLoop parentChain c cs ++
         "COMMIT\n\n")]

/-- Unwraps an installer trace; the `none` (undefined-behaviour) branch is
unreachable for every call the program makes, which is proved below from
the topology arrays. -/
def optCalls : Option (List Call) → List Call
  | none => []
  | some calls => calls

/-- The eight topology-installation calls of `Controllers::initIptablesRules`
(Controllers.cpp lines 150-157), in source order. -/
def topologyCalls : List Call :=
  optCalls (createChildChainsFast .V4V6 "filter" "INPUT" FILTER_INPUT) ++
  optCalls (createChildChainsFast .V4V6 "filter" "FORWARD" FILTER_FORWARD) ++
  optCalls (createChildChains .V4V6 "filter" "OUTPUT" FILTER_OUTPUT) ++
  optCalls (createChildChainsFast .V4V6 "raw" "PREROUTING" RAW_PREROUTING) ++
  optCalls (createChildChains .V4V6 "mangle" "POSTROUTING" MANGLE_POSTROUTING) ++
  optCalls (createChildChainsFast .V4V6 "mangle" "FORWARD" MANGLE_FORWARD) ++
  optCalls (createChildChainsFast .V4 "nat" "PREROUTING" NAT_PREROUTING) ++
  optCalls (createChildChainsFast .V4 "nat" "POSTROUTING" NAT_POSTROUTING)

/-- The module hook-registration sequence of `initIptablesRules`
(Controllers.cpp lines 161-184), in source order: OEM hook, firewall, NAT,
bandwidth, idle-timer. -/
def moduleHookCalls : List Call :=
  [Call.oemHook,
   Call.firewallHooks,
   Call.natHooks,
   Call.bandwidthHooks,
   Call.idletimerHooks]

/-- `Controllers::initIptablesRules` (Controllers.cpp lines 135-185) as its
invocation trace.  The function is straight-line: no invocation's result is
inspected (the installers return `void` and exec results are discarded), so
the trace is a fixed list; the `Stopwatch`/log statements between the calls
only produce log output and are not part of the trace. -/
def initIptablesRules : List Call :=
  topologyCalls ++ moduleHookCalls

/-- Modelled from the spec: `NetworkController::LOCAL_NET_ID`, the daemon's
own network identifier (NetworkController.h, outside the shown material);
only its identity matters. -/
def LOCAL_NET_ID : Nat := 99

/-- `Controllers::init` (Controllers.cpp lines 187-198) as its invocation
trace: `initIptablesRules()`, then `enableBandwidthControl(false)`, then
`RouteController::Init(LOCAL_NET_ID)`.  The result of the route-controller
call is only logged (lines 194-196), never branched on beyond the log, so
the trace does not depend on it. -/
def controllersInit : List Call :=
  initIptablesRules ++
    [Call.enableBandwidthControl false,
     Call.routeControllerInit LOCAL_NET_ID]

/-- Modelled from the spec: a rule in a chain is either a jump to a named
child chain or some other (e.g. vendor-injected) rule, identified by a tag;
this core never inspects rule bodies beyond jump targets. -/
inductive Rule
  | jump (target : String)
  | other (tag : Nat)
deriving DecidableEq, Repr

/-- Modelled from the spec: a chain of the kernel rule state: its name,
whether it is a built-in hook chain (built-ins always exist and cannot be
deleted), and its ordered rule list. -/
structure ChainDef where
  name : String
  builtin : Bool
  rules : List Rule
deriving DecidableEq, Repr

/-- Modelled from the spec: one table's state, as the ordered list of its
chains. -/
abbrev TableState : Type := List ChainDef

/-- Modelled from the spec: one address family's rule state: the tables,
keyed by name. -/
abbrev FamilyState : Type := List (String × TableState)

/-- Looks up a chain by name in a table. -/
def findChain (ts : TableState) (n : String) : Option ChainDef :=
  ts.find? (fun c => c.name == n)

/-- Rewrites the chain named `n` (if present) with `f`. -/
def mapChain (ts : TableState) (n : String) (f : ChainDef → ChainDef) : TableState :=
  ts.map (fun c => if c.name == n then f c else c)

/-- Removes the first jump-to-`child` rule, or `none` when there is none. -/
def removeFirstJump : List Rule → String → Option (List Rule)
  | [], _ => none
  | r :: rs, child =>
      if r = Rule.jump child then some rs
      else (removeFirstJump rs child).map (fun rs2 => r :: rs2)

/-- Modelled from the spec: `iptables -D parent -j child` deletes the first
matching jump rule; it fails when the parent chain or a matching rule is
absent. -/
def opDeleteJump (ts : TableState) (parentChain child : String) : Option TableState :=
  match findChain ts parentChain with
  | none => none
  | some cd =>
      (removeFirstJump cd.rules child).map (fun rs =>
        mapChain ts parentChain (fun c => { c with rules := rs }))

/-- Modelled from the spec: `iptables -F chain` empties the chain's rule
list; it fails when the chain does not exist. -/
def opFlush (ts : TableState) (n : String) : Option TableState :=
  match findChain ts n with
  | none => none
  | some _ => some (mapChain ts n (fun c => { c with rules := [] }))

/-- True when some chain of the table holds a jump rule to `n`. -/
def isReferenced (ts : TableState) (n : String) : Bool :=
  ts.any (fun c => c.rules.contains (Rule.jump n))

/-- Modelled from the spec: `iptables -X chain` deletes a user-defined
chain; it fails when the chain is absent, built-in, non-empty, or still
referenced by a jump rule. -/
def opDeleteChain (ts : TableState) (n : String) : Option TableState :=
  match findChain ts n with
  | none => none
  | some cd =>
      if cd.builtin || !cd.rules.isEmpty || isReferenced ts n then none
      else some (ts.filter (fun c => !(c.name == n)))

/-- Modelled from the spec: `iptables -N chain` creates an empty
user-defined chain; it fails when a chain of that name already exists. -/
def opNewChain (ts : TableState) (n : String) : Option TableState :=
  match findChain ts n with
  | some _ => none
  | none => some (ts ++ [⟨n, false, []⟩])

/-- Modelled from the spec: `iptables -A parent -j child` appends a jump
rule; it fails when the parent or the target chain does not exist. -/
def opAppendJump (ts : TableState) (parentChain child : String) : Option TableState :=
  match findChain ts parentChain, findChain ts child with
  | some _, some _ =>
      some (mapChain ts parentChain (fun c => { c with rules := c.rules ++ [Rule.jump child] }))
  | _, _ => none

/-- Modelled from the spec: the `:chain -` reset directive of a noflush
restore script: it flushes an existing user-defined chain, creates a missing
chain, and (per the comment at Controllers.cpp lines 117-118) does not flush
a built-in chain. -/
def opChainReset (ts : TableState) (n : String) : Option TableState :=
  match findChain ts n with
  | some cd => if cd.builtin then some ts else opFlush ts n
  | none => some (ts ++ [⟨n, false, []⟩])

/-- Looks up a table by name. -/
def getTable (fs : FamilyState) (t : String) : Option TableState :=
  (fs.find? (fun p => p.1 == t)).map (fun p => p.2)

/-- Replaces the table named `t`. -/
def setTable (fs : FamilyState) (t : String) (ts : TableState) : FamilyState :=
  fs.map (fun p => if p.1 == t then (p.1, ts) else p)

/-- Modelled from the spec: the per-call external rule-management invocation
`execute(family, args...) -> exit status`: the state transition and success
flag of one `iptables`/`ip6tables` run on one family; an unrecognized
argument vector fails without effect. -/
def execOnFamily (fs : FamilyState) (args : List String) : FamilyState × Bool :=
  let step : String → (TableState → Option TableState) → FamilyState × Bool :=
    fun t f =>
      match getTable fs t with
      | none => (fs, false)
      | some ts =>
          match f ts with
          | none => (fs, false)
          | some ts2 => (setTable fs t ts2, true)
  match args with
  | ["-t", t, "-D", parentChain, "-j", child] => step t (fun ts => opDeleteJump ts parentChain child)
  | ["-t", t, "-F", n] => step t (fun ts => opFlush ts n)
  | ["-t", t, "-X", n] => step t (fun ts => opDeleteChain ts n)
  | ["-t", t, "-N", n] => step t (fun ts => opNewChain ts n)
  | ["-t", t, "-A", parentChain, "-j", child] => step t (fun ts => opAppendJump ts parentChain child)
  | _ => (fs, false)

/-- One line of an iptables-restore script, as this core emits them:
table selector, chain reset, flush, append-jump, COMMIT, or blank. -/
inductive RestoreLine
  | table (name : String)
  | chainReset (name : String)
  | flushChain (name : String)
  | appendJump (parentChain child : String)
  | commit
  | blank
  | bad
deriving DecidableEq, Repr

/-- Splits a character list at every occurrence of `sep`, keeping empty
segments, like `String.splitOn` on a one-character separator. -/
def splitChars (sep : Char) : List Char → List (List Char)
  | [] => [[]]
  | c :: cs =>
      let rest := splitChars sep cs
      if c = sep then [] :: rest
      else
        match rest with
        | [] => [[c]]
        | l :: ls => (c :: l) :: ls

/-- Parses one restore-script line, given as its character list. -/
def parseLineChars (cs : List Char) : RestoreLine :=
  if cs = [] then RestoreLine.blank
  else if cs = "COMMIT".data then RestoreLine.commit
  else
    match cs with
    | '*' :: rest => RestoreLine.table (String.mk rest)
    | ':' :: rest =>
        match splitChars ' ' rest with
        | [n, d] => if d = ['-'] then RestoreLine.chainReset (String.mk n) else RestoreLine.bad
        | _ => RestoreLine.bad
    | '-' :: 'F' :: ' ' :: rest => RestoreLine.flushChain (String.mk rest)
    | _ =>
        match splitChars ' ' cs with
        | [a, parentChain, j, child] =>
            if a = "-A".data && j = "-j".data then
              RestoreLine.appendJump (String.mk parentChain) (String.mk child)
            else RestoreLine.bad
        | _ => RestoreLine.bad

/-- Parses one restore-script line. -/
def parseRestoreLine (s : String) : RestoreLine :=
  parseLineChars s.data

/-- Modelled from the spec: effect of one restore-script line, given the
currently selected table; directives outside a table section fail. -/
def applyRestoreLine (fs : FamilyState) (cur : Option String) :
    RestoreLine → Option (FamilyState × Option String)
  | RestoreLine.blank => some (fs, cur)
  | RestoreLine.bad => none
  | RestoreLine.table n =>
      if (getTable fs n).isSome then some (fs, some n) else none
  | RestoreLine.commit =>
      match cur with
      | some _ => some (fs, none)
      | none => none
  | RestoreLine.chainReset n =>
      match cur with
      | none => none
      | some t =>
          match getTable fs t with
          | none => none
          | some ts => (opChainReset ts n).map (fun ts2 => (setTable fs t ts2, some t))
  | RestoreLine.flushChain n =>
      match cur with
      | none => none
      | some t =>
          match getTable fs t with
          | none => none
          | some ts => (opFlush ts n).map (fun ts2 => (setTable fs t ts2, some t))
  | RestoreLine.appendJump parentChain child =>
      match cur with
      | none => none
      | some t =>
          match getTable fs t with
          | none => none
          | some ts => (opAppendJump ts parentChain child).map (fun ts2 => (setTable fs t ts2, some t))

/-- Applies restore-script lines in order, stopping at the first failure. -/
def applyRestoreLines (fs : FamilyState) (cur : Option String) :
    List RestoreLine → Option FamilyState
  | [] => some fs
  | l :: ls =>
      match applyRestoreLine fs cur l with
      | none => none
      | some (fs2, cur2) => applyRestoreLines fs2 cur2 ls

/-- Modelled from the spec: the external rule-transaction invocation
`executeTransaction(family, script) -> exit status`: the whole script is
applied as one atomic unit, so on any line failure the previous state is
left intact and a failing status is returned. -/
def applyRestore (fs : FamilyState) (script : String) : FamilyState × Bool :=
  match applyRestoreLines fs none ((splitChars '\n' script.data).map parseLineChars) with
  | none => (fs, false)
  | some fs2 => (fs2, true)

/-- An address family of rule state. -/
inductive Fam
  | v4
  | v6
deriving DecidableEq, Repr

/-- The families a target fans out to: `V4V6` runs the tool once per
family. -/
def famsOf : IptablesTarget → List Fam
  | IptablesTarget.V4 => [Fam.v4]
  | IptablesTarget.V6 => [Fam.v6]
  | IptablesTarget.V4V6 => [Fam.v4, Fam.v6]

/-- Modelled from the spec: the shared mutable resource — the kernel rule
tables of both address families. -/
structure KernelState where
  v4 : FamilyState
  v6 : FamilyState
deriving DecidableEq, Repr

/-- The rule state of one family. -/
def famState (s : KernelState) : Fam → FamilyState
  | Fam.v4 => s.v4
  | Fam.v6 => s.v6

/-- Replaces the rule state of one family. -/
def setFamState (s : KernelState) : Fam → FamilyState → KernelState
  | Fam.v4, fs => { s with v4 := fs }
  | Fam.v6, fs => { s with v6 := fs }

/-- Runs one per-family action over every family the target fans out to,
combining exit statuses as the source's `res |= ...` does: overall success
iff every family invocation succeeded. -/
def applyOnTarget (s : KernelState) (target : IptablesTarget)
    (f : FamilyState → FamilyState × Bool) : KernelState × Bool :=
  (famsOf target).foldl
    (fun acc fam =>
      let r := f (famState acc.1 fam)
      (setFamState acc.1 fam r.1, acc.2 && r.2))
    (s, true)

/-- Modelled from the spec: the state transition and exit status of one
`Call`.  The silent exec variant differs from the ordinary one only in
logging, which has no state effect; module hooks mutate only rule content
inside their own child chains (out of scope, no effect on the chain
topology modelled here), and the bandwidth default and route-controller
calls do not touch the rule tables. -/
def applyCall (s : KernelState) : Call → KernelState × Bool
  | Call.exec target args => applyOnTarget s target (fun fs => execOnFamily fs args)
  | Call.execSilent target args => applyOnTarget s target (fun fs => execOnFamily fs args)
  | Call.restore target script => applyOnTarget s target (fun fs => applyRestore fs script)
  | Call.oemHook => (s, true)
  | Call.firewallHooks => (s, true)
  | Call.natHooks => (s, true)
  | Call.bandwidthHooks => (s, true)
  | Call.idletimerHooks => (s, true)
  | Call.enableBandwidthControl _ => (s, true)
  | Call.routeControllerInit _ => (s, true)

/-- Runs a trace, discarding exit statuses — exactly what the source does:
no status of any of these invocations is ever branched on. -/
def runCalls (s : KernelState) : List Call → KernelState
  | [] => s
  | c :: cs => runCalls (applyCall s c).1 cs

/-- Runs a trace keeping each invocation's exit status alongside it. -/
def runWithStatuses (s : KernelState) : List Call → KernelState × List (Call × Bool)
  | [] => (s, [])
  | c :: cs =>
      let r := applyCall s c
      let rest := runWithStatuses r.1 cs
      (rest.1, (c, r.2) :: rest.2)

/-- A fresh table holding only its built-in hook chains, all empty. -/
def freshTable (builtins : List String) : TableState :=
  builtins.map (fun n => ⟨n, true, []⟩)

/-- Modelled from the spec: one family's kernel rule state at boot — the
four tables this core touches, each with its built-in hook chains present
and empty and no user-defined chains. -/
def freshFamily : FamilyState :=
  [("filter", freshTable ["INPUT", "FORWARD", "OUTPUT"]),
   ("raw", freshTable ["PREROUTING", "OUTPUT"]),
   ("mangle", freshTable ["PREROUTING", "INPUT", "FORWARD", "OUTPUT", "POSTROUTING"]),
   ("nat", freshTable ["PREROUTING", "INPUT", "OUTPUT", "POSTROUTING"])]

/-- The boot-time kernel state for both families. -/
def freshState : KernelState :=
  ⟨freshFamily, freshFamily⟩

/-- The number of jump rules from `parentChain` to `child` in a family's
table; `0` when the table or parent chain is missing. -/
def jumpCount (fs : FamilyState) (table parentChain child : String) : Nat :=
  match getTable fs table with
  | none => 0
  | some ts =>
      match findChain ts parentChain with
      | none => 0
      | some cd => cd.rules.count (Rule.jump child)

/-- The rule list of a chain, or `none` when the table or chain is
missing. -/
def chainRules (fs : FamilyState) (table n : String) : Option (List Rule) :=
  match getTable fs table with
  | none => none
  | some ts => (findChain ts n).map (fun cd => cd.rules)

/-- The installation strategy of a topology entry: `safe` is
`createChildChains`, `fast` is `createChildChainsFast`. -/
inductive Strategy
  | safe
  | fast
deriving DecidableEq, Repr

/-- A topology entry: the argument tuple of one of the eight installer
calls of `initIptablesRules`, tagged with which installer the source
applies to it. -/
structure TopologyEntry where
  target : IptablesTarget
  table : String
  parentChain : String
  childChains : List String
  strategy : Strategy
deriving DecidableEq, Repr

/-- The trace of one topology entry's installation, dispatching on its
strategy tag. -/
def installEntry (e : TopologyEntry) : Option (List Call) :=
  match e.strategy with
  | Strategy.safe => createChildChains e.target e.table e.parentChain e.childChains
  | Strategy.fast => createChildChainsFast e.target e.table e.parentChain e.childChains

/-- The eight topology entries of `initIptablesRules` (Controllers.cpp
lines 150-157), reified in source order with their strategy tags; that this
list reproduces `topologyCalls` is proved below. -/
def topology : List TopologyEntry :=
  [⟨IptablesTarget.V4V6, "filter", "INPUT", FILTER_INPUT, Strategy.fast⟩,
   ⟨IptablesTarget.V4V6, "filter", "FORWARD", FILTER_FORWARD, Strategy.fast⟩,
   ⟨IptablesTarget.V4V6, "filter", "OUTPUT", FILTER_OUTPUT, Strategy.safe⟩,
   ⟨IptablesTarget.V4V6, "raw", "PREROUTING", RAW_PREROUTING, Strategy.fast⟩,
   ⟨IptablesTarget.V4V6, "mangle", "POSTROUTING", MANGLE_POSTROUTING, Strategy.safe⟩,
   ⟨IptablesTarget.V4V6, "mangle", "FORWARD", MANGLE_FORWARD, Strategy.fast⟩,
   ⟨IptablesTarget.V4, "nat", "PREROUTING", NAT_PREROUTING, Strategy.fast⟩,
   ⟨IptablesTarget.V4, "nat", "POSTROUTING", NAT_POSTROUTING, Strategy.fast⟩]

/-- Modelled from the spec: the orchestrator lifecycle states
(spec section 4.4). -/
inductive LifecycleState
  | Uninitialized
  | TopologyBuilding
  | HooksRegistering
  | DefaultsApplying
  | RoutingInit
  | Ready
  | Failed
deriving DecidableEq, Repr

/-- Modelled from the spec: the lifecycle states `Controllers::init` passes
through, as a function of the kernel state it starts from and the status
`RouteController::Init` returns.  The source's `init` (and the
`initIptablesRules` it calls) is straight-line code: the installers return
`void`, every exec status is discarded, and the route-controller status is
only logged (Controllers.cpp lines 194-196), so no input can divert the
progression — the daemon always runs every phase and ends `Ready`. -/
def initLifecycle (s0 : KernelState) (routeStatus : Int) : List LifecycleState :=
  let _ := runCalls s0 controllersInit
  let _ := routeStatus
  [LifecycleState.TopologyBuilding,
   LifecycleState.HooksRegistering,
   LifecycleState.DefaultsApplying,
   LifecycleState.RoutingInit,
   LifecycleState.Ready]

/-- `Controllers::init`'s effect: the kernel state it leaves behind together
with the lifecycle states it passes through, as a function of the starting
kernel state and the status `RouteController::Init` returns. -/
def controllersInitRun (s0 : KernelState) (routeStatus : Int) :
    KernelState × List LifecycleState :=
  (runCalls s0 controllersInit, initLifecycle s0 routeStatus)

/-- The kernel state after one full topology installation from boot. -/
def installedOnce : KernelState :=
  runCalls freshState topologyCalls

/-- The kernel state after a second full topology installation, starting
from the state the first one left (a daemon restart without a reboot). -/
def installedTwice : KernelState :=
  runCalls installedOnce topologyCalls

/-- A filter table in which the vendor left a duplicated jump rule from
OUTPUT to its own pre-existing `oem_out` chain: a state on which the safe
installer's `-X`/`-N` calls fail. -/
def dupJumpFilterTable : TableState :=
  [⟨"INPUT", true, []⟩,
   ⟨"FORWARD", true, []⟩,
   ⟨"OUTPUT", true, [Rule.jump OEM_IPTABLES_FILTER_OUTPUT, Rule.jump OEM_IPTABLES_FILTER_OUTPUT]⟩,
   ⟨OEM_IPTABLES_FILTER_OUTPUT, false, []⟩]

/-- One family of `dupJumpState`. -/
def dupJumpFamily : FamilyState :=
  [("filter", dupJumpFilterTable),
   ("raw", freshTable ["PREROUTING", "OUTPUT"]),
   ("mangle", freshTable ["PREROUTING", "INPUT", "FORWARD", "OUTPUT", "POSTROUTING"]),
   ("nat", freshTable ["PREROUTING", "INPUT", "OUTPUT", "POSTROUTING"])]

/-- A concrete starting kernel state on which a create-chain (`-N`)
invocation of the safe installer returns a failing status. -/
def dupJumpState : KernelState :=
  ⟨dupJumpFamily, dupJumpFamily⟩

theorem string_join_cons (a : String) (l : List String) :
    String.join (a :: l) = a ++ String.join l := by
  apply String.ext
  simp [String.join_eq]

theorem createChildChainsFastLoop_eq (parentChain c : String) (cs : List String) :
    createChildChainsFastLoop parentChain c cs =
      String.join ((c :: cs).map (fun ch =>
        ":" ++ ch ++ " -\n" ++ "-A " ++ parentChain ++ " -j " ++ ch ++ "\n")) := by
  induction cs generalizing c with
  | nil =>
      apply String.ext
      simp [createChildChainsFastLoop, String.join_eq]
  | cons c2 rest ih =>
      rw [createChildChainsFastLoop, ih c2]
      rw [show ((c :: c2 :: rest).map (fun ch =>
            ":" ++ ch ++ " -\n" ++ "-A " ++ parentChain ++ " -j " ++ ch ++ "\n")) =
          (":" ++ c ++ " -\n" ++ "-A " ++ parentChain ++ " -j " ++ c ++ "\n") ::
            ((c2 :: rest).map (fun ch =>
              ":" ++ ch ++ " -\n" ++ "-A " ++ parentChain ++ " -j " ++ ch ++ "\n")) from rfl]
      rw [string_join_cons]

theorem createChildChainsLoop_eq (target : IptablesTarget) (table parentChain c : String)
    (cs : List String) :
    createChildChainsLoop target table parentChain c cs =
      (c :: cs).flatMap (fun child => safeChildCalls target table parentChain child) := by
  induction cs generalizing c with
  | nil => simp [createChildChainsLoop]
  | cons c2 rest ih => simp [createChildChainsLoop, ih]

theorem runWithStatuses_calls (s : KernelState) (calls : List Call) :
    (runWithStatuses s calls).2.map Prod.fst = calls := by
  induction calls generalizing s with
  | nil => rfl
  | cons c cs ih => simp [runWithStatuses, ih]

/-- C1 (counterexample): the claim fails on the code.  Starting from
`dupJumpState`, the safe installer's create-chain invocation
`iptables -t filter -N oem_out` returns a failing status (the chain still
exists because the duplicated jump rule kept `-X` from removing it), yet
the orchestrator issues every remaining invocation, registers the module
hooks after the failure (the failing call's index precedes every hook
call's index), and its lifecycle still ends `Ready` with no `Failed`
state. -/
theorem createChildChains_create_failure_not_propagated :
    ((runWithStatuses dupJumpState controllersInit).2.contains
        (Call.exec IptablesTarget.V4V6 ["-t", "filter", "-N", OEM_IPTABLES_FILTER_OUTPUT],
         false)) = true ∧
    Call.oemHook ∈ controllersInit ∧
    Call.firewallHooks ∈ controllersInit ∧
    controllersInit.findIdx
        (fun c => c == Call.exec IptablesTarget.V4V6 ["-t", "filter", "-N", OEM_IPTABLES_FILTER_OUTPUT]) <
      controllersInit.findIdx (fun c => c == Call.oemHook) ∧
    (initLifecycle dupJumpState 0).getLast? = some LifecycleState.Ready ∧
    LifecycleState.Failed ∉ initLifecycle dupJumpState 0 := by
  refine ⟨by decide, by decide, by decide, by decide, by decide, by decide⟩

/-- C1 (amended): failures of the create-chain and append-jump-rule
invocations are not detected at all: the installers return `void` and no
exit status is ever branched on, so from every starting kernel state and
every route-controller status the orchestrator issues exactly the same
invocation sequence (hook registration included) and its lifecycle runs
every phase to `Ready`, never `Failed`. -/
theorem initIptablesRules_ignores_exec_failures (s0 : KernelState) (routeStatus : Int) :
    initLifecycle s0 routeStatus =
      [LifecycleState.TopologyBuilding, LifecycleState.HooksRegistering,
       LifecycleState.DefaultsApplying, LifecycleState.RoutingInit, LifecycleState.Ready] ∧
    LifecycleState.Failed ∉ initLifecycle s0 routeStatus ∧
    (runWithStatuses s0 controllersInit).2.map Prod.fst = controllersInit ∧
    Call.oemHook ∈ controllersInit ∧
    Call.firewallHooks ∈ controllersInit ∧
    Call.natHooks ∈ controllersInit ∧
    Call.bandwidthHooks ∈ controllersInit ∧
    Call.idletimerHooks ∈ controllersInit := by
  refine ⟨rfl, ?_, runWithStatuses_calls s0 controllersInit,
    by decide, by decide, by decide, by decide, by decide⟩
  show LifecycleState.Failed ∉
    [LifecycleState.TopologyBuilding, LifecycleState.HooksRegistering,
     LifecycleState.DefaultsApplying, LifecycleState.RoutingInit, LifecycleState.Ready]
  decide

/-- C2: for every target, table, parent chain and non-empty child list, the
fast installer issues exactly one external invocation — a single
rule-transaction call — whose script is the table selector line, the
chain-reset directive for the parent, the explicit flush of the parent,
then per child in declared order a chain-reset directive and an append-jump
rule, terminated by the COMMIT line. -/
theorem createChildChainsFast_single_transaction (target : IptablesTarget)
    (table parentChain c : String) (cs : List String) :
    createChildChainsFast target table parentChain (c :: cs) =
      some [Call.restore target
        ("*" ++ table ++ "\n" ++
         ":" ++ parentChain ++ " -\n" ++
         "-F " ++ parentChain ++ "\n" ++
         String.join ((c :: cs).map (fun ch =>
           ":" ++ ch ++ " -\n" ++ "-A " ++ parentChain ++ " -j " ++ ch ++ "\n")) ++
         "COMMIT\n\n")] := by
  rw [createChildChainsFast, createChildChainsFastLoop_eq]

set_option maxRecDepth 1000000 in
/-- C3: running the full eight-entry topology installation twice in
succession from the boot state — the second run starting from the state the
first one left — gives, for every topology entry, every declared child
chain and every address family the entry targets, exactly one jump rule
from the parent chain to that child (never zero, never duplicated), and
already after the first run the same holds: installation is idempotent on
the jump-rule state. -/
theorem topology_install_idempotent :
    (topology.all (fun e =>
      e.childChains.all (fun c =>
        (famsOf e.target).all (fun f =>
          jumpCount (famState installedTwice f) e.table e.parentChain c == 1)))) = true ∧
    (topology.all (fun e =>
      e.childChains.all (fun c =>
        (famsOf e.target).all (fun f =>
          jumpCount (famState installedOnce f) e.table e.parentChain c == 1)))) = true := by
  constructor
  · decide
  · decide

/-- C4: for every target, table, parent chain and non-empty child list, the
safe installer issues exactly five external-tool invocations per child, in
declared child order: delete any existing jump rule from the parent to the
child, flush the child, delete the child, create the child, append the jump
rule from parent to child — the first three with the error-suppressing
silent variant, the last two with the ordinary variant. -/
theorem createChildChains_five_calls_per_child (target : IptablesTarget)
    (table parentChain c : String) (cs : List String) :
    createChildChains target table parentChain (c :: cs) =
      some ((c :: cs).flatMap (fun child =>
        [Call.execSilent target ["-t", table, "-D", parentChain, "-j", child],
         Call.execSilent target ["-t", table, "-F", child],
         Call.execSilent target ["-t", table, "-X", child],
         Call.exec target ["-t", table, "-N", child],
         Call.exec target ["-t", table, "-A", parentChain, "-j", child]])) := by
  rw [createChildChains, createChildChainsLoop_eq]
  simp only [safeChildCalls]

set_option maxRecDepth 1000000 in
/-- C5: after installation, in both address families, the filter INPUT
chain holds exactly two rules — first the jump to the bandwidth-accounting
input chain, then the jump to the firewall input chain — and both child
chains exist and are empty. -/
theorem filter_input_scenario :
    chainRules installedOnce.v4 "filter" "INPUT" =
        some [Rule.jump BandwidthController.LOCAL_INPUT, Rule.jump FirewallController.LOCAL_INPUT] ∧
    chainRules installedOnce.v6 "filter" "INPUT" =
        some [Rule.jump BandwidthController.LOCAL_INPUT, Rule.jump FirewallController.LOCAL_INPUT] ∧
    chainRules installedOnce.v4 "filter" BandwidthController.LOCAL_INPUT = some [] ∧
    chainRules installedOnce.v6 "filter" BandwidthController.LOCAL_INPUT = some [] ∧
    chainRules installedOnce.v4 "filter" FirewallController.LOCAL_INPUT = some [] ∧
    chainRules installedOnce.v6 "filter" FirewallController.LOCAL_INPUT = some [] := by
  refine ⟨by decide, by decide, by decide, by decide, by decide, by decide⟩

set_option maxRecDepth 1000000 in
/-- C6: the reified topology reproduces the installer call sequence of
`initIptablesRules`, and in it exactly the two entries whose parent chains
vendor code also modifies — (filter, OUTPUT) and (mangle, POSTROUTING) —
use the safe strategy, while the remaining six entries use the fast
strategy that flushes the parent chain. -/
theorem strategy_assignment :
    topologyCalls = topology.flatMap (fun e => optCalls (installEntry e)) ∧
    (topology.filter (fun e => e.strategy == Strategy.safe)).map
        (fun e => (e.table, e.parentChain)) =
      [("filter", "OUTPUT"), ("mangle", "POSTROUTING")] ∧
    (topology.filter (fun e => e.strategy == Strategy.fast)).map
        (fun e => (e.table, e.parentChain)) =
      [("filter", "INPUT"), ("filter", "FORWARD"), ("raw", "PREROUTING"),
       ("mangle", "FORWARD"), ("nat", "PREROUTING"), ("nat", "POSTROUTING")] := by
  refine ⟨by decide, by decide, by decide⟩

/-- C7 (counterexample): the claim fails on the code.  In the registrar's
invocation sequence the bandwidth (accounting) module's hook installation
does not run before the decision modules: its index in the
`initIptablesRules` trace is strictly after both the firewall and the NAT
hook calls. -/
theorem bandwidth_hooks_not_before_decision_modules :
    ¬ (initIptablesRules.findIdx (fun c => c == Call.bandwidthHooks) <
         initIptablesRules.findIdx (fun c => c == Call.firewallHooks) ∧
       initIptablesRules.findIdx (fun c => c == Call.bandwidthHooks) <
         initIptablesRules.findIdx (fun c => c == Call.natHooks)) := by
  decide

/-- C7 (amended): after all topology-entry installations, the registrar
invokes each feature module's hook-installation operation exactly once, in
the fixed sequence OEM hook, firewall, NAT, bandwidth, idle-timer; in that
sequence the bandwidth (accounting) module's hooks are registered after the
firewall and NAT decision modules (the count-before-decide ordering is
carried by the topology's child-chain order, not by the registration
sequence). -/
theorem module_hook_sequence :
    initIptablesRules = topologyCalls ++ moduleHookCalls ∧
    moduleHookCalls =
      [Call.oemHook, Call.firewallHooks, Call.natHooks,
       Call.bandwidthHooks, Call.idletimerHooks] ∧
    initIptablesRules.count Call.oemHook = 1 ∧
    initIptablesRules.count Call.firewallHooks = 1 ∧
    initIptablesRules.count Call.natHooks = 1 ∧
    initIptablesRules.count Call.bandwidthHooks = 1 ∧
    initIptablesRules.count Call.idletimerHooks = 1 ∧
    initIptablesRules.findIdx (fun c => c == Call.firewallHooks) <
      initIptablesRules.findIdx (fun c => c == Call.bandwidthHooks) ∧
    initIptablesRules.findIdx (fun c => c == Call.natHooks) <
      initIptablesRules.findIdx (fun c => c == Call.bandwidthHooks) := by
  refine ⟨rfl, rfl, by decide, by decide, by decide, by decide, by decide, by decide, by decide⟩

/-- C8: a failing (non-zero) status from `RouteController::Init` is logged
but not propagated: the orchestrator's lifecycle still ends `Ready`, and
both the lifecycle and the kernel state `Controllers::init` leaves are the
same as when the call succeeds — every prior effect remains applied. -/
theorem route_init_failure_nonfatal (s0 : KernelState) (routeStatus : Int)
    (_h : routeStatus ≠ 0) :
    (controllersInitRun s0 routeStatus).2.getLast? = some LifecycleState.Ready ∧
    controllersInitRun s0 routeStatus = controllersInitRun s0 0 := by
  exact ⟨rfl, rfl⟩

/-- C8 (witness): the theorem applied at the boot state and the concrete
failing status `-22`. -/
theorem route_init_failure_nonfatal_witness :
    (-22 : Int) ≠ 0 ∧
    ((controllersInitRun freshState (-22)).2.getLast? = some LifecycleState.Ready ∧
      controllersInitRun freshState (-22) = controllersInitRun freshState 0) :=
  ⟨by decide, route_init_failure_nonfatal freshState (-22) (by decide)⟩

set_option maxRecDepth 1000000 in
/-- C9: `Controllers::init` performs its phases in the fixed order: the
eight topology-entry installer calls of `initIptablesRules` in source
order, then the five module hook registrations, then disabling bandwidth
control as the default policy, then routing-policy initialization for the
daemon's local network identifier; the timing instrumentation between the
phases produces only log output and does not appear in (or affect) the
invocation sequence. -/
theorem controllers_init_phase_order :
    controllersInit =
      optCalls (createChildChainsFast IptablesTarget.V4V6 "filter" "INPUT" FILTER_INPUT) ++
      optCalls (createChildChainsFast IptablesTarget.V4V6 "filter" "FORWARD" FILTER_FORWARD) ++
      optCalls (createChildChains IptablesTarget.V4V6 "filter" "OUTPUT" FILTER_OUTPUT) ++
      optCalls (createChildChainsFast IptablesTarget.V4V6 "raw" "PREROUTING" RAW_PREROUTING) ++
      optCalls (createChildChains IptablesTarget.V4V6 "mangle" "POSTROUTING" MANGLE_POSTROUTING) ++
      optCalls (createChildChainsFast IptablesTarget.V4V6 "mangle" "FORWARD" MANGLE_FORWARD) ++
      optCalls (createChildChainsFast IptablesTarget.V4 "nat" "PREROUTING" NAT_PREROUTING) ++
      optCalls (createChildChainsFast IptablesTarget.V4 "nat" "POSTROUTING" NAT_POSTROUTING) ++
      [Call.oemHook, Call.firewallHooks, Call.natHooks,
       Call.bandwidthHooks, Call.idletimerHooks] ++
      [Call.enableBandwidthControl false] ++
      [Call.routeControllerInit LOCAL_NET_ID] := by
  decide

/-- C10: both installers dereference the first child before testing the
NULL terminator, so they are defined only on non-empty child lists — on the
empty list the embedding is `none` — and every one of the eight static
topology arrays the program passes contains at least one child chain, so
the undefined case is unreachable for every call in the program. -/
theorem topology_children_nonempty :
    (∀ target : IptablesTarget, ∀ table parentChain : String,
      createChildChains target table parentChain [] = none ∧
      createChildChainsFast target table parentChain [] = none) ∧
    (topology.all (fun e => !e.childChains.isEmpty)) = true ∧
    (topology.all (fun e => (installEntry e).isSome)) = true := by
  refine ⟨fun target table parentChain => ⟨rfl, rfl⟩, by decide, by decide⟩
